import Mathlib

/-!
Verification of the sensor-monitoring and alerting engine
(`notifications.py`).

Shallow embedding conventions:
* Python `float` is idealised as `ℚ` (exact arithmetic); the one genuinely
  irrational operation, `** 0.5` in the vibration sensor's RMS, is modelled
  over `ℝ` with `Real.sqrt`.
* Python `int` is `ℤ`, lengths are `ℕ`.
* `print`-based success/failure reporting of the notifiers is modelled by a
  result value carrying the printed line; a Python exception is modelled by
  `Except.error`.
* Mutation of an object is modelled by returning the updated value; the one
  claim about aliasing (the `sensores` getter returning a `.copy()`) is
  modelled with an explicit heap of list cells.
-/

namespace Monitoreo

/-- Round a rational to the nearest integer, ties to even: the rounding used
by Python float formatting on exactly representable values. -/
def redondeoMitadPar (q : ℚ) : ℤ :=
  let f := ⌊q⌋
  if q - f < 1/2 then f
  else if (1:ℚ)/2 < q - f then f + 1
  else if f % 2 = 0 then f else f + 1

/-- Two decimal digits, left padded with 0. -/
def dosDigitos (n : ℕ) : String :=
  (if n < 10 then "0" else "") ++ toString n

/-- Model of the Python f-string conversion `{x:.2f}` on the idealised
rational value (the sign of a negative zero is not reproduced). -/
def formatoDosDecimales (q : ℚ) : String :=
  let n := redondeoMitadPar (q * 100)
  let signo := if n < 0 then "-" else ""
  signo ++ toString (n.natAbs / 100) ++ "." ++ dosDigitos (n.natAbs % 100)

/-- Embedding of dataclass `Sensor` (abstract base): fields `id`, `ventana`,
`ubicacion`, `_calibracion`, `_buffer`, with the dataclass defaults. -/
structure Sensor where
  id : String
  ventana : ℤ := 5
  ubicacion : String := "No especificada"
  calibracion : ℚ := 0
  buffer : List ℚ := []
  deriving Repr, DecidableEq

/-- `Sensor.leer`: append `valor + _calibracion`; if the buffer now exceeds
`ventana`, `pop(0)` the oldest element. -/
def Sensor.leer (s : Sensor) (valor : ℚ) : Sensor :=
  let v := valor + s.calibracion
  let buf := s.buffer ++ [v]
  if (buf.length : ℤ) > s.ventana then { s with buffer := buf.tail }
  else { s with buffer := buf }

/-- `Sensor.promedio`: `mean(self._buffer) if self._buffer else 0.0`. -/
def Sensor.promedio (s : Sensor) : ℚ :=
  if s.buffer = [] then 0 else s.buffer.sum / s.buffer.length

/-- Feeding a whole sequence of raw readings to a sensor, one `leer` call
per element. -/
def leerSeq (s : Sensor) (vs : List ℚ) : Sensor :=
  vs.foldl Sensor.leer s

/-- A freshly constructed sensor: explicit id, window, location and
calibration, with the dataclass's default empty buffer. -/
def sensorNuevo (nombre : String) (w : ℤ) (ub : String) (cal : ℚ) : Sensor :=
  { id := nombre, ventana := w, ubicacion := ub, calibracion := cal, buffer := [] }

/-- Embedding of `SensorTemperatura` with its dataclass defaults. -/
structure SensorTemperatura extends Sensor where
  umbral_max : ℚ := 80
  umbral_min : ℚ := -10
  unidad : String := "C"
  deriving Repr, DecidableEq

/-- `SensorTemperatura.en_alerta`:
`self.promedio >= self.umbral_max or self.promedio <= self.umbral_min`. -/
def SensorTemperatura.en_alerta (s : SensorTemperatura) : Bool :=
  decide (Sensor.promedio s.toSensor ≥ s.umbral_max) ||
    decide (Sensor.promedio s.toSensor ≤ s.umbral_min)

/-- Embedding of `SensorVibracion` with its dataclass defaults. -/
structure SensorVibracion extends Sensor where
  rms_umbral : ℚ := 5/2
  frecuencia : ℤ := 1000
  deriving Repr, DecidableEq

/-- `SensorVibracion.calcular_rms`: `0.0` on an empty buffer, otherwise
`(sum(x**2 for x in buffer) / len(buffer)) ** 0.5`; the argument of `** 0.5`
is non-negative, so the power is `Real.sqrt`. -/
noncomputable def SensorVibracion.calcular_rms (s : SensorVibracion) : ℝ :=
  if s.buffer = [] then 0
  else Real.sqrt (((s.buffer.map (fun x => x ^ 2)).sum / s.buffer.length : ℚ) : ℝ)

/-- `SensorVibracion.en_alerta`:
`abs(self.calcular_rms()) >= self.rms_umbral` (a real-number comparison,
hence a `Prop`). -/
def SensorVibracion.en_alerta (s : SensorVibracion) : Prop :=
  |s.calcular_rms| ≥ (s.rms_umbral : ℝ)

/-- The spec's formula for the vibration statistic: the square root of the
mean of the squares of the buffer elements (`sqrt(mean(x² for x in buffer))`;
in Lean the empty-buffer mean `0 / 0` is `0`, so this is `0.0` when empty,
exactly as the spec states). -/
noncomputable def rmsSpec (l : List ℚ) : ℝ :=
  Real.sqrt (((l.map (fun x => x ^ 2)).sum / l.length : ℚ) : ℝ)

/-- Embedding of `SensorHumedad` with its dataclass defaults. -/
structure SensorHumedad extends Sensor where
  umbral_humedad : ℚ := 85
  tipo_ambiente : String := "interior"
  deriving Repr, DecidableEq

/-- `SensorHumedad.en_alerta`: `self.promedio >= self.umbral_humedad`. -/
def SensorHumedad.en_alerta (s : SensorHumedad) : Bool :=
  decide (Sensor.promedio s.toSensor ≥ s.umbral_humedad)

/-- Outcome of one `enviar` call: the printed line, tagged by whether it is
the delivery line or the validation-failure line. -/
inductive ResultadoEnvio where
  | entregado (salida : String)
  | fallo (salida : String)
  deriving Repr, DecidableEq

/-- Character class `[a-zA-Z0-9._%+-]` of the local part of the e-mail
pattern (`Char.isAlpha`/`Char.isDigit` are exactly the ASCII ranges). -/
def localChar (c : Char) : Bool :=
  c.isAlpha || c.isDigit || c == '.' || c == '_' || c == '%' || c == '+' || c == '-'

/-- Character class `[a-zA-Z0-9.-]` of the domain part. -/
def domChar (c : Char) : Bool :=
  c.isAlpha || c.isDigit || c == '.' || c == '-'

/-- Character class `[a-zA-Z]` of the top-level-domain part. -/
def tldChar (c : Char) : Bool :=
  c.isAlpha

/-- Matcher for the part of the e-mail regex after the `@`:
`[a-zA-Z0-9.-]+\.[a-zA-Z]{2,}$`.  Because the `[a-zA-Z]{2,}` tail is
anchored at the end and contains no dot, its `\.` must be the dot
immediately before the maximal alphabetic suffix. -/
def validarResto (r : List Char) : Bool :=
  decide (2 ≤ ((r.reverse.takeWhile tldChar).reverse).length) &&
    decide (((r.reverse.dropWhile tldChar).reverse).getLast? = some '.') &&
    !((r.reverse.dropWhile tldChar).reverse).dropLast.isEmpty &&
    ((r.reverse.dropWhile tldChar).reverse).dropLast.all domChar

/-- Embedding of `NotificadorEmail.validar_email`: a deterministic matcher
for the anchored regex `^[a-zA-Z0-9._%+-]+@[a-zA-Z0-9.-]+\.[a-zA-Z]{2,}$`
used with `re.match`.  Because `@` is in no character class, the local part
must be the maximal `localChar` prefix, immediately followed by a literal
`@`.  The theorem `validar_email_correcto` proves this matcher equivalent to
the declarative pattern `emailSpec`. -/
def validar_email (dest : String) : Bool :=
  if (dest.toList.dropWhile localChar).head? = some '@' then
    !(dest.toList.takeWhile localChar).isEmpty &&
      validarResto (dest.toList.dropWhile localChar).tail
  else false

/-- Declarative reading of the spec's "standard `local@domain.tld` pattern":
some decomposition `local ++ "@" ++ domain ++ "." ++ tld` with a non-empty
local part over `[a-zA-Z0-9._%+-]`, a non-empty domain over `[a-zA-Z0-9.-]`,
and an alphabetic tld of length at least 2. -/
def emailSpec (dest : String) : Prop :=
  ∃ l d t : List Char,
    dest.toList = l ++ '@' :: (d ++ '.' :: t) ∧
    l ≠ [] ∧ (∀ c ∈ l, localChar c) ∧
    d ≠ [] ∧ (∀ c ∈ d, domChar c) ∧
    2 ≤ t.length ∧ (∀ c ∈ t, tldChar c)

/-- Embedding of class `NotificadorEmail`: encapsulated destination and SMTP
server (default `"smtp.gmail.com"`). -/
structure NotificadorEmail where
  destinatario : String
  servidor_smtp : String := "smtp.gmail.com"
  deriving Repr, DecidableEq

/-- `NotificadorEmail.enviar`: print the delivery line when
`validar_email()` holds, otherwise print the error line (no delivery). -/
def NotificadorEmail.enviar (n : NotificadorEmail) (mensaje : String) : ResultadoEnvio :=
  if validar_email n.destinatario then
    .entregado ("[EMAIL via " ++ n.servidor_smtp ++ " a " ++ n.destinatario ++ "] " ++ mensaje)
  else
    .fallo ("[ERROR EMAIL] Dirección inválida: " ++ n.destinatario)

/-- Python `str.startswith(a, b)` where `b` is a string: the second
positional argument of `startswith` is the integer start index, so passing
a string raises `TypeError` whatever the receiver is.  The call never
returns a boolean. -/
def startswithInicioCadena (_s _a _b : String) : Except String Bool :=
  Except.error "TypeError: slice indices must be integers or None or have an __index__ method"

/-- Embedding of `NotificadorWebhook.validar_url`:
`self._url.startswith("http://", "https://")`. -/
def validar_url (url : String) : Except String Bool :=
  startswithInicioCadena url "http://" "https://"

/-- The spec's corrected semantics for the webhook URL check (§9): the URL
begins with `http://` or begins with `https://` (prefix test on the
character sequence). -/
def validar_url_spec (url : String) : Bool :=
  "http://".toList.isPrefixOf url.toList || "https://".toList.isPrefixOf url.toList

/-- `NotificadorWebhook.enviar`: branch on `validar_url()`; since that call
raises, the whole method propagates the exception. -/
def NotificadorWebhook.enviar (url mensaje : String) : Except String ResultadoEnvio := do
  let ok ← validar_url url
  if ok then pure (.entregado ("[WEBHOOK " ++ url ++ "] " ++ mensaje))
  else pure (.fallo "[ERROR WEBHOOK] URL no valida")

/-- Embedding of `NotificadorSMS.formato_numero`: keep the `isdigit`
characters; with at least 10 digits left, produce
`+1-{d[-10:-7]}-{d[-7:-4]}-{d[-4:]}` (Python negative slices written with
`drop`/`take`), otherwise return the raw string unchanged. -/
def formato_numero (numero : String) : String :=
  let numeros := numero.toList.filter Char.isDigit
  let n := numeros.length
  if 10 ≤ n then
    "+1-" ++ String.mk ((numeros.drop (n - 10)).take 3) ++ "-" ++
      String.mk ((numeros.drop (n - 7)).take 3) ++ "-" ++
      String.mk (numeros.drop (n - 4))
  else numero

/-- The spec's wording of the SMS formatter: take the last 10 digits and
group them 3-3-4 as `+1-NNN-NNN-NNNN`. -/
def formato_numero_spec (numero : String) : String :=
  let numeros := numero.toList.filter Char.isDigit
  if 10 ≤ numeros.length then
    let u := numeros.drop (numeros.length - 10)
    "+1-" ++ String.mk (u.take 3) ++ "-" ++ String.mk ((u.drop 3).take 3) ++ "-" ++
      String.mk (u.drop 6)
  else numero

/-- Interface view of a registered sensor, as used by the alert manager:
the manager only reads `sensor.id`, `sensor.en_alerta()` and
`sensor.promedio` (dynamic dispatch), so a sensor is modelled by that
observable snapshot. -/
structure SensorI where
  id : String
  en_alerta : Bool
  promedio : ℚ
  deriving Repr, DecidableEq

/-- Concrete temperature sensors instantiate the interface view. -/
def SensorTemperatura.vista (s : SensorTemperatura) : SensorI :=
  { id := s.id, en_alerta := s.en_alerta, promedio := Sensor.promedio s.toSensor }

/-- Concrete humidity sensors instantiate the interface view. -/
def SensorHumedad.vista (s : SensorHumedad) : SensorI :=
  { id := s.id, en_alerta := s.en_alerta, promedio := Sensor.promedio s.toSensor }

/-- The alert message built in `evaluar_y_notificar`:
`f"🚨 ALERTA: Sensor {sensor.id} en umbral (promedio={sensor.promedio:.2f})"`. -/
def alertaMensaje (s : SensorI) : String :=
  "🚨 ALERTA: Sensor " ++ s.id ++ " en umbral (promedio=" ++
    formatoDosDecimales s.promedio ++ ")"

/-- Embedding of dataclass `RegistroAlerta` (the `datetime.now()` timestamp,
a wall-clock side channel, is outside the embedding). -/
structure RegistroAlerta where
  sensor_id : String
  mensaje : String
  nivel : String
  valor_medido : ℚ
  deriving Repr, DecidableEq

/-- The `RegistroAlerta` constructed for an alerting sensor in
`evaluar_y_notificar`. -/
def RegistroAlerta.deSensor (s : SensorI) : RegistroAlerta :=
  { sensor_id := s.id, mensaje := alertaMensaje s, nivel := "WARNING",
    valor_medido := s.promedio }

/-- An observable `enviar` event of the dispatch loop: which registered
notifier was invoked, with which message. -/
inductive Evento where
  | envio (notificador : String) (mensaje : String)
  deriving Repr, DecidableEq

/-- Embedding of class `GestorAlertas`: ordered sensors, ordered notifiers
(identified by opaque names, in registration order), and the alert log.
The configuration value is carried but unused by the core algorithm. -/
structure GestorAlertas where
  sensores : List SensorI
  notificadores : List String
  log_alertas : List RegistroAlerta
  deriving Repr, DecidableEq

/-- Body of the `for sensor in self._sensores` loop of
`evaluar_y_notificar`: on alert, append the record to the log and `enviar`
the message to every registered notifier in order. -/
def pasoSensor (nots : List String) (acc : List RegistroAlerta × List Evento)
    (s : SensorI) : List RegistroAlerta × List Evento :=
  if s.en_alerta then
    (acc.1 ++ [RegistroAlerta.deSensor s],
      acc.2 ++ nots.map (fun n => Evento.envio n (alertaMensaje s)))
  else acc

/-- `GestorAlertas.evaluar_y_notificar`: iterate the sensors in registration
order, log and dispatch per alerting sensor; returns the updated manager and
the ordered trace of `enviar` calls. -/
def evaluar_y_notificar (g : GestorAlertas) : GestorAlertas × List Evento :=
  let r := g.sensores.foldl (pasoSensor g.notificadores) (g.log_alertas, [])
  ({ g with log_alertas := r.1 }, r.2)

/-- `GestorAlertas.limpiar_historico`: remember the log length, clear the
log, and report how many alerts were removed. -/
def limpiar_historico (g : GestorAlertas) : GestorAlertas × ℕ :=
  let alertas_eliminadas := g.log_alertas.length
  ({ g with log_alertas := [] }, alertas_eliminadas)

/-- A heap of Python list objects (cells indexed by `ℕ` references), used to
model aliasing for the `sensores` getter. -/
def leerCelda (h : List (List α)) (r : ℕ) : List α :=
  h.getD r []

/-- `lst.append(x)` on the list object behind reference `r`. -/
def agregarEnCelda (h : List (List α)) (r : ℕ) (x : α) : List (List α) :=
  h.set r (leerCelda h r ++ [x])

/-- `lst.pop()` on the list object behind reference `r` (removes the last
element). -/
def quitarDeCelda (h : List (List α)) (r : ℕ) : List (List α) :=
  h.set r (leerCelda h r).dropLast

/-- The `sensores` property: `return self._sensores.copy()` — allocate a
fresh cell holding the same elements and return its reference. -/
def sensoresGetter (h : List (List α)) (r : ℕ) : List (List α) × ℕ :=
  (h ++ [leerCelda h r], h.length)

/-- C4: for every Temperature sensor state, `en_alerta()` returns true iff
the sensor's average is at least `umbral_max` or at most `umbral_min`. -/
theorem temperatura_en_alerta_caracterizacion (s : SensorTemperatura) :
    s.en_alerta = true ↔
      Sensor.promedio s.toSensor ≥ s.umbral_max ∨
        Sensor.promedio s.toSensor ≤ s.umbral_min := by
  simp [SensorTemperatura.en_alerta]

/-- C6: `promedio` is the arithmetic mean of the buffer (with the
empty-buffer mean read as 0), and is exactly 0 on an empty buffer; in this
embedding it is a pure function of the sensor value, so it has no side
effects. -/
theorem promedio_caracterizacion (s : Sensor) :
    Sensor.promedio s = s.buffer.sum / s.buffer.length ∧
      (s.buffer = [] → Sensor.promedio s = 0) := by
  constructor
  · by_cases h : s.buffer = [] <;> simp [Sensor.promedio, h]
  · intro h; simp [Sensor.promedio, h]

/-- Witness for C6 at a concrete empty-buffer sensor and a concrete loaded
one. -/
theorem promedio_caracterizacion_caso :
    Sensor.promedio { id := "S" } = 0 ∧
      Sensor.promedio { id := "S", buffer := [1, 2, 3] } = 2 := by
  constructor
  · exact (promedio_caracterizacion { id := "S" }).2 rfl
  · have h := (promedio_caracterizacion { id := "S", buffer := [1, 2, 3] }).1
    rw [h]; norm_num

/-- C9: `limpiar_historico` leaves the alert history empty, reports the
prior history length, and touches nothing else in the manager. -/
theorem limpiar_historico_correcto (g : GestorAlertas) :
    (limpiar_historico g).1.log_alertas.length = 0 ∧
      (limpiar_historico g).2 = g.log_alertas.length ∧
      (limpiar_historico g).1.sensores = g.sensores ∧
      (limpiar_historico g).1.notificadores = g.notificadores := by
  simp [limpiar_historico]

/-- C3 (counter-evidence): `validar_url` never returns a boolean — the
two-string `startswith` call raises `TypeError` — even though the spec's
corrected semantics accepts this very URL, which the repository's own demo
(`configurar_sistema_inicial`) registers as a webhook. -/
theorem validar_url_typeerror :
    validar_url "https://api.empresa.com/alertas" =
        Except.error
          "TypeError: slice indices must be integers or None or have an __index__ method" ∧
      validar_url_spec "https://api.empresa.com/alertas" = true ∧
      (∀ url, validar_url url =
        Except.error
          "TypeError: slice indices must be integers or None or have an __index__ method") ∧
      (∀ url mensaje, NotificadorWebhook.enviar url mensaje =
        Except.error
          "TypeError: slice indices must be integers or None or have an __index__ method") := by
  refine ⟨rfl, by decide, fun url => rfl, fun url mensaje => rfl⟩

/-- C5: the vibration predicate holds iff the absolute value of the RMS
statistic — the square root of the mean of the squares of the buffer, 0 on
an empty buffer — is at least `rms_umbral`. -/
theorem vibracion_en_alerta_caracterizacion (s : SensorVibracion) :
    (s.en_alerta ↔ (s.rms_umbral : ℝ) ≤ |rmsSpec s.buffer|) ∧
      s.calcular_rms = rmsSpec s.buffer ∧
      (s.buffer = [] → rmsSpec s.buffer = 0) := by
  have hrms : s.calcular_rms = rmsSpec s.buffer := by
    by_cases h : s.buffer = []
    · simp [SensorVibracion.calcular_rms, rmsSpec, h]
    · simp [SensorVibracion.calcular_rms, rmsSpec, h]
  refine ⟨?_, hrms, ?_⟩
  · unfold SensorVibracion.en_alerta
    rw [hrms]
  · intro h
    simp [rmsSpec, h]

/-- Witness for C5: a concrete one-element buffer, where the RMS is the
element itself. -/
theorem vibracion_en_alerta_caso :
    rmsSpec ([] : List ℚ) = 0 ∧
      (({ id := "V", buffer := [7/2] } : SensorVibracion).en_alerta ↔
        ((5 : ℝ) / 2 ≤ |rmsSpec [7/2]|)) := by
  constructor
  · exact (vibracion_en_alerta_caracterizacion { id := "V" }).2.2 rfl
  · have h := (vibracion_en_alerta_caracterizacion
      ({ id := "V", buffer := [7/2] } : SensorVibracion)).1
    simpa using h

/-- C7: the SMS formatter equals the spec's last-10-digits 3-3-4 grouping
on every input, and behaves as stated on the spec's two examples. -/
theorem formato_numero_correcto :
    (∀ numero, formato_numero numero = formato_numero_spec numero) ∧
      formato_numero "555-123-4567" = "+1-555-123-4567" ∧
      formato_numero "123" = "123" := by
  refine ⟨fun numero => ?_, by decide, by decide⟩
  simp only [formato_numero, formato_numero_spec]
  by_cases h : 10 ≤ (numero.toList.filter Char.isDigit).length
  · rw [if_pos h, if_pos h, List.drop_drop, List.drop_drop,
      show (numero.toList.filter Char.isDigit).length - 10 + 3 =
        (numero.toList.filter Char.isDigit).length - 7 by omega,
      show (numero.toList.filter Char.isDigit).length - 10 + 6 =
        (numero.toList.filter Char.isDigit).length - 4 by omega]
  · rw [if_neg h, if_neg h]

/-- `leer` only changes the buffer: the calibration offset is preserved. -/
theorem leer_calibracion (s : Sensor) (v : ℚ) :
    (s.leer v).calibracion = s.calibracion := by
  simp only [Sensor.leer]
  split <;> rfl

/-- `leer` only changes the buffer: the window size is preserved. -/
theorem leer_ventana_eq (s : Sensor) (v : ℚ) :
    (s.leer v).ventana = s.ventana := by
  simp only [Sensor.leer]
  split <;> rfl

/-- The buffer after one `leer` call, as a conditional on the window bound. -/
theorem leer_buffer (s : Sensor) (v : ℚ) :
    (s.leer v).buffer =
      if (((s.buffer ++ [v + s.calibracion]).length : ℤ)) > s.ventana
      then (s.buffer ++ [v + s.calibracion]).tail
      else s.buffer ++ [v + s.calibracion] := by
  simp only [Sensor.leer]
  rw [apply_ite Sensor.buffer]

/-- A whole reading sequence preserves the calibration offset. -/
theorem leerSeq_calibracion (vs : List ℚ) (s : Sensor) :
    (leerSeq s vs).calibracion = s.calibracion := by
  induction vs generalizing s with
  | nil => rfl
  | cons v vs ih =>
      show (leerSeq (s.leer v) vs).calibracion = s.calibracion
      rw [ih (s.leer v), leer_calibracion]

/-- A whole reading sequence preserves the window size. -/
theorem leerSeq_ventana (vs : List ℚ) (s : Sensor) :
    (leerSeq s vs).ventana = s.ventana := by
  induction vs generalizing s with
  | nil => rfl
  | cons v vs ih =>
      show (leerSeq (s.leer v) vs).ventana = s.ventana
      rw [ih (s.leer v), leer_ventana_eq]

/-- Closed form of the buffer after any reading sequence fed to a sensor
that starts empty: the last `ventana` calibrated values, in arrival order. -/
theorem leerSeq_buffer (s : Sensor) (hs : s.buffer = []) (hw : 0 < s.ventana)
    (vs : List ℚ) :
    (leerSeq s vs).buffer =
      (vs.map (· + s.calibracion)).drop (vs.length - s.ventana.toNat) := by
  induction vs using List.reverseRecOn with
  | nil => simpa [leerSeq] using hs
  | append_singleton l a ih =>
      have hfold : leerSeq s (l ++ [a]) = (leerSeq s l).leer a := by
        simp [leerSeq, List.foldl_append]
      have hcal : (leerSeq s l).calibracion = s.calibracion := leerSeq_calibracion l s
      have hven : (leerSeq s l).ventana = s.ventana := leerSeq_ventana l s
      have hwz : (s.ventana.toNat : ℤ) = s.ventana := Int.toNat_of_nonneg (le_of_lt hw)
      have hw1 : 1 ≤ s.ventana.toNat := by omega
      have hLlen : (l.map (· + s.calibracion)).length = l.length := List.length_map l _
      rw [hfold, leer_buffer, hcal, hven, ih]
      by_cases hc : s.ventana.toNat ≤ l.length
      · have hTlen :
            ((l.map (· + s.calibracion)).drop (l.length - s.ventana.toNat)).length =
              s.ventana.toNat := by
          rw [List.length_drop, hLlen]; omega
        rw [if_pos (by rw [List.length_append, hTlen]; simp; omega)]
        rw [← List.drop_one, List.drop_append_eq_append_drop, hTlen,
          show 1 - s.ventana.toNat = 0 by omega, List.drop_zero, List.drop_drop,
          List.map_append, List.length_append, List.map_singleton,
          List.length_singleton, List.drop_append_eq_append_drop,
          show l.length + 1 - s.ventana.toNat - (l.map (· + s.calibracion)).length = 0 by
            rw [hLlen]; omega,
          List.drop_zero,
          show l.length - s.ventana.toNat + 1 = l.length + 1 - s.ventana.toNat by omega]
      · have h0 : l.length - s.ventana.toNat = 0 := by omega
        rw [h0, List.drop_zero,
          if_neg (by rw [List.length_append, hLlen]; simp; omega),
          List.map_append, List.length_append, List.map_singleton,
          List.length_singleton,
          show l.length + 1 - s.ventana.toNat = 0 by omega, List.drop_zero]

/-- C2: a sensor created with a positive window and fed any sequence of
readings keeps at most `ventana` buffered values, and the buffer is exactly
the most recent `ventana` calibrated values (raw value plus calibration
offset) in arrival order, oldest evicted first.  Any moment "after each
`record` call" is the final state of the corresponding prefix of calls, so
quantifying over all sequences covers every intermediate state. -/
theorem leer_ventana_invariante (nombre ub : String) (w : ℤ) (cal : ℚ)
    (vs : List ℚ) (hw : 0 < w) :
    ((leerSeq (sensorNuevo nombre w ub cal) vs).buffer =
      (vs.map (· + cal)).drop (vs.length - w.toNat)) ∧
    (leerSeq (sensorNuevo nombre w ub cal) vs).buffer.length ≤ w.toNat := by
  have h := leerSeq_buffer (sensorNuevo nombre w ub cal) rfl hw vs
  refine ⟨h, ?_⟩
  rw [h, List.length_drop, List.length_map]
  simp only [sensorNuevo]
  omega

/-- Witness for C2: window 2 and calibration 1 over readings 10, 20, 30
leave exactly the two most recent calibrated values 21, 31. -/
theorem leer_ventana_invariante_caso :
    (leerSeq (sensorNuevo "S" 2 "u" 1) [10, 20, 30]).buffer = [21, 31] := by
  have h := (leer_ventana_invariante "S" "u" 2 1 [10, 20, 30] (by decide)).1
  rw [h]
  norm_num
  simp

/-- Closed form of the sensor loop inside `evaluar_y_notificar`: the log
grows by one record per alerting sensor in order, and the dispatch trace is,
per alerting sensor in order, one `enviar` per notifier in registration
order. -/
theorem pasoSensor_foldl (nots : List String) (sensores : List SensorI)
    (log : List RegistroAlerta) (evs : List Evento) :
    sensores.foldl (pasoSensor nots) (log, evs) =
      (log ++ (sensores.filter (fun s => s.en_alerta)).map RegistroAlerta.deSensor,
        evs ++ (sensores.filter (fun s => s.en_alerta)).flatMap
          (fun s => nots.map (fun n => Evento.envio n (alertaMensaje s)))) := by
  induction sensores generalizing log evs with
  | nil => simp
  | cons s rest ih =>
      rw [List.foldl_cons]
      by_cases h : s.en_alerta = true
      · rw [List.filter_cons_of_pos h]
        simp only [pasoSensor, h, if_true]
        rw [ih]
        simp [List.append_assoc]
      · rw [List.filter_cons_of_neg (by simp [h])]
        simp only [pasoSensor, h, if_false]
        exact ih log evs

/-- C1: `evaluar_y_notificar` walks the sensors in registration order;
each alerting sensor appends exactly one WARNING record whose message
contains the sensor id and the formatted average and whose measured value
is the sensor's current average, and then every registered notifier, in
registration order, receives `enviar` with that message; with no alerting
sensor the trace is empty and the history is unchanged. -/
theorem evaluar_y_notificar_correcto (g : GestorAlertas) :
    (evaluar_y_notificar g).1.log_alertas =
        g.log_alertas ++
          (g.sensores.filter (fun s => s.en_alerta)).map RegistroAlerta.deSensor ∧
      (evaluar_y_notificar g).2 =
        (g.sensores.filter (fun s => s.en_alerta)).flatMap
          (fun s => g.notificadores.map (fun n => Evento.envio n (alertaMensaje s))) ∧
      (∀ s : SensorI, (RegistroAlerta.deSensor s).nivel = "WARNING" ∧
        (RegistroAlerta.deSensor s).valor_medido = s.promedio ∧
        (RegistroAlerta.deSensor s).mensaje = alertaMensaje s) ∧
      (∀ s : SensorI, ∃ p q, alertaMensaje s = p ++ (s.id ++ q)) ∧
      (∀ s : SensorI, ∃ p q,
        alertaMensaje s = p ++ (formatoDosDecimales s.promedio ++ q)) ∧
      ((∀ s ∈ g.sensores, s.en_alerta = false) →
        (evaluar_y_notificar g).2 = [] ∧
          (evaluar_y_notificar g).1.log_alertas = g.log_alertas) ∧
      (evaluar_y_notificar g).1.sensores = g.sensores ∧
      (evaluar_y_notificar g).1.notificadores = g.notificadores := by
  have hfold := pasoSensor_foldl g.notificadores g.sensores g.log_alertas []
  have h1 : (evaluar_y_notificar g).1.log_alertas =
      g.log_alertas ++
        (g.sensores.filter (fun s => s.en_alerta)).map RegistroAlerta.deSensor := by
    simp [evaluar_y_notificar, hfold]
  have h2 : (evaluar_y_notificar g).2 =
      (g.sensores.filter (fun s => s.en_alerta)).flatMap
        (fun s => g.notificadores.map (fun n => Evento.envio n (alertaMensaje s))) := by
    simp [evaluar_y_notificar, hfold]
  refine ⟨h1, h2, fun s => ⟨rfl, rfl, rfl⟩, ?_, ?_, ?_, rfl, rfl⟩
  · intro s
    refine ⟨"🚨 ALERTA: Sensor ",
      " en umbral (promedio=" ++ formatoDosDecimales s.promedio ++ ")", ?_⟩
    simp [alertaMensaje, String.append_assoc]
  · intro s
    refine ⟨"🚨 ALERTA: Sensor " ++ s.id ++ " en umbral (promedio=", ")", ?_⟩
    simp [alertaMensaje, String.append_assoc]
  · intro hall
    have hnil : g.sensores.filter (fun s => s.en_alerta) = [] := by
      rw [List.filter_eq_nil_iff]
      intro a ha
      simp [hall a ha]
    rw [h1, h2, hnil]
    simp

/-- Witness for C1: a manager whose only sensor is not alerting dispatches
nothing and leaves the history unchanged. -/
theorem evaluar_y_notificar_caso :
    (evaluar_y_notificar ⟨[⟨"T1", false, 20⟩], ["email", "sms"], []⟩).2 = [] ∧
      (evaluar_y_notificar
        ⟨[⟨"T1", false, 20⟩], ["email", "sms"], []⟩).1.log_alertas = [] := by
  have h := (evaluar_y_notificar_correcto
    ⟨[⟨"T1", false, 20⟩], ["email", "sms"], []⟩).2.2.2.2.2.1
  exact h (by intro s hs; simp at hs; rw [hs])

/-- C10: the `sensores` getter allocates a fresh list cell holding the same
elements; appending to or popping from the returned object leaves the
manager's internal list unchanged. -/
theorem sensores_copia_protege {α : Type} (h : List (List α)) (r : ℕ)
    (hr : r < h.length) :
    (sensoresGetter h r).2 ≠ r ∧
      leerCelda (sensoresGetter h r).1 (sensoresGetter h r).2 = leerCelda h r ∧
      (∀ x, leerCelda
        (agregarEnCelda (sensoresGetter h r).1 (sensoresGetter h r).2 x) r =
        leerCelda h r) ∧
      leerCelda (quitarDeCelda (sensoresGetter h r).1 (sensoresGetter h r).2) r =
        leerCelda h r := by
  have hne : h.length ≠ r := Nat.ne_of_gt hr
  refine ⟨hne, ?_, ?_, ?_⟩
  · show leerCelda (h ++ [leerCelda h r]) h.length = leerCelda h r
    rw [leerCelda, List.getD_eq_getElem?_getD, List.getElem?_concat_length]
    rfl
  · intro x
    show leerCelda ((h ++ [leerCelda h r]).set h.length _) r = leerCelda h r
    rw [leerCelda, leerCelda, List.getD_eq_getElem?_getD, List.getD_eq_getElem?_getD,
      List.getElem?_set_ne hne, List.getElem?_append, if_pos hr]
  · show leerCelda ((h ++ [leerCelda h r]).set h.length _) r = leerCelda h r
    rw [leerCelda, leerCelda, List.getD_eq_getElem?_getD, List.getD_eq_getElem?_getD,
      List.getElem?_set_ne hne, List.getElem?_append, if_pos hr]

/-- Witness for C10: a one-cell heap; appending 7 through the copy leaves
the original cell at `[1, 2]`. -/
theorem sensores_copia_protege_caso :
    leerCelda (agregarEnCelda (sensoresGetter ([[1, 2]] : List (List ℕ)) 0).1
      (sensoresGetter ([[1, 2]] : List (List ℕ)) 0).2 7) 0 = [1, 2] :=
  (sensores_copia_protege ([[1, 2]] : List (List ℕ)) 0 (by decide)).2.2.1 7

/-- `takeWhile` passes over a leading block that wholly satisfies the
predicate. -/
theorem takeWhile_append_todos {α : Type} (p : α → Bool) (l r : List α)
    (h : ∀ c ∈ l, p c) : (l ++ r).takeWhile p = l ++ r.takeWhile p := by
  induction l with
  | nil => simp
  | cons a l ih =>
      rw [List.cons_append, List.takeWhile_cons_of_pos (h a (List.mem_cons_self a l)),
        ih (fun c hc => h c (List.mem_cons_of_mem a hc)), List.cons_append]

/-- `dropWhile` removes a leading block that wholly satisfies the
predicate. -/
theorem dropWhile_append_todos {α : Type} (p : α → Bool) (l r : List α)
    (h : ∀ c ∈ l, p c) : (l ++ r).dropWhile p = r.dropWhile p := by
  induction l with
  | nil => simp
  | cons a l ih =>
      rw [List.cons_append, List.dropWhile_cons_of_pos (h a (List.mem_cons_self a l)),
        ih (fun c hc => h c (List.mem_cons_of_mem a hc))]

/-- The tail matcher accepts exactly the decompositions
`domain ++ "." ++ tld` with a non-empty `domChar` domain and an alphabetic
tld of length at least 2. -/
theorem validarResto_iff (r : List Char) :
    validarResto r = true ↔
      ∃ d t : List Char, r = d ++ '.' :: t ∧ d ≠ [] ∧ (∀ c ∈ d, domChar c) ∧
        2 ≤ t.length ∧ (∀ c ∈ t, tldChar c) := by
  constructor
  · intro hb
    simp only [validarResto, Bool.and_eq_true, decide_eq_true_eq, Bool.not_eq_true',
      List.isEmpty_eq_false, List.all_eq_true] at hb
    obtain ⟨⟨⟨ht2, hlast⟩, hdne⟩, hdall⟩ := hb
    have hrt : (r.reverse.dropWhile tldChar).reverse ++
        (r.reverse.takeWhile tldChar).reverse = r := by
      rw [← List.reverse_append, List.takeWhile_append_dropWhile, List.reverse_reverse]
    have hrne : (r.reverse.dropWhile tldChar).reverse ≠ [] := by
      intro h0
      rw [h0] at hlast
      simp at hlast
    have hsplit : (r.reverse.dropWhile tldChar).reverse =
        ((r.reverse.dropWhile tldChar).reverse).dropLast ++ ['.'] := by
      have h1 := List.dropLast_append_getLast hrne
      have h2 := List.getLast?_eq_getLast _ hrne
      rw [h2, Option.some.injEq] at hlast
      rw [hlast] at h1
      exact h1.symm
    refine ⟨((r.reverse.dropWhile tldChar).reverse).dropLast,
      (r.reverse.takeWhile tldChar).reverse, ?_, hdne, hdall, ht2, ?_⟩
    · conv_lhs => rw [← hrt, hsplit]
      rw [List.append_assoc, List.singleton_append]
    · intro c hc
      exact List.mem_takeWhile_imp (List.mem_reverse.mp hc)
  · rintro ⟨d, t, hr, hdne, hdall, ht2, htall⟩
    subst hr
    have h1 : (d ++ '.' :: t).reverse = t.reverse ++ '.' :: d.reverse := by
      rw [List.reverse_append, List.reverse_cons, List.append_assoc,
        List.singleton_append]
    have htodos : ∀ c ∈ t.reverse, tldChar c :=
      fun c hc => htall c (List.mem_reverse.mp hc)
    have htake : (d ++ '.' :: t).reverse.takeWhile tldChar = t.reverse := by
      rw [h1, takeWhile_append_todos tldChar t.reverse ('.' :: d.reverse) htodos,
        List.takeWhile_cons_of_neg (by decide), List.append_nil]
    have hdrop : (d ++ '.' :: t).reverse.dropWhile tldChar = '.' :: d.reverse := by
      rw [h1, dropWhile_append_todos tldChar t.reverse ('.' :: d.reverse) htodos]
      exact List.dropWhile_cons_of_neg (by decide)
    simp only [validarResto, htake, hdrop, List.reverse_reverse, List.reverse_cons]
    rw [List.getLast?_concat, List.dropLast_concat]
    simp [ht2, hdne, List.isEmpty_eq_false, List.all_eq_true]
    exact hdall

/-- C8: `validar_email` accepts exactly the strings matching the standard
`local@domain.tld` pattern; `"admin@example.com"` validates,
`"not-an-email"` does not, and an invalid destination makes `enviar` report
the failure line instead of delivering. -/
theorem validar_email_correcto :
    (∀ dest, validar_email dest = true ↔ emailSpec dest) ∧
      validar_email "admin@example.com" = true ∧
      validar_email "not-an-email" = false ∧
      (∀ (n : NotificadorEmail) (mensaje : String),
        validar_email n.destinatario = false →
          NotificadorEmail.enviar n mensaje =
            .fallo ("[ERROR EMAIL] Dirección inválida: " ++ n.destinatario)) := by
  refine ⟨fun dest => ?_, by decide, by decide, fun n mensaje hv => ?_⟩
  · constructor
    · intro hb
      unfold validar_email at hb
      rcases hdw : dest.toList.dropWhile localChar with _ | ⟨c, r⟩
      · rw [hdw] at hb
        simp at hb
      · rw [hdw] at hb
        by_cases hc : c = '@'
        · subst hc
          rw [List.head?_cons, if_pos rfl, List.tail_cons, Bool.and_eq_true] at hb
          obtain ⟨hlne, hresto⟩ := hb
          obtain ⟨d, t, hrdt, hdne, hdall, ht2, htall⟩ := (validarResto_iff r).mp hresto
          refine ⟨dest.toList.takeWhile localChar, d, t, ?_, ?_,
            fun ch hch => List.mem_takeWhile_imp hch, hdne, hdall, ht2, htall⟩
          · conv_lhs => rw [← List.takeWhile_append_dropWhile localChar dest.toList]
            rw [hdw, hrdt]
          · simpa [List.isEmpty_eq_false] using hlne
        · rw [List.head?_cons, if_neg (by simp [hc])] at hb
          exact absurd hb (by simp)
    · rintro ⟨l, d, t, hcs, hlne, hlall, hdne, hdall, ht2, htall⟩
      have hdw : dest.toList.dropWhile localChar = '@' :: (d ++ '.' :: t) := by
        rw [hcs, dropWhile_append_todos localChar l ('@' :: (d ++ '.' :: t)) hlall]
        exact List.dropWhile_cons_of_neg (by decide)
      have htw : dest.toList.takeWhile localChar = l := by
        rw [hcs, takeWhile_append_todos localChar l ('@' :: (d ++ '.' :: t)) hlall,
          List.takeWhile_cons_of_neg (by decide), List.append_nil]
      unfold validar_email
      rw [hdw, htw, List.head?_cons, if_pos rfl, List.tail_cons, Bool.and_eq_true]
      exact ⟨by simpa [List.isEmpty_eq_false] using hlne,
        (validarResto_iff _).mpr ⟨d, t, rfl, hdne, hdall, ht2, htall⟩⟩
  · simp [NotificadorEmail.enviar, hv]

/-- Witness for C8: the invalid destination of the spec's example makes
`enviar` produce the failure line. -/
theorem validar_email_correcto_caso :
    NotificadorEmail.enviar { destinatario := "not-an-email" } "hola" =
      .fallo ("[ERROR EMAIL] Dirección inválida: " ++ "not-an-email") :=
  validar_email_correcto.2.2.2 { destinatario := "not-an-email" } "hola" (by decide)

end Monitoreo
